import Mathlib

/- Verification development for the Kokoro TTS/STT backend
   (src/Backend/config.py, src/Backend/tts/tts_service.py,
   src/Backend/stt/stt_service.py, src/Backend/main.py).

   Shallow embedding conventions:
   - Python floats arising from time.time() arithmetic, file sizes and
     probabilities are modelled as rationals (ℚ).  The only float operation a
     claim depends on is the division len(contents) / (1024*1024): dividing by
     the power of two 2^20 is exact in binary floating point for every byte
     count below 2^53, so the rational model agrees with the float code there.
   - Python exceptions at the two fallible call sites of each adapter (the
     engine call / generator drain, and the file write) are modelled as
     `Except String` oracle inputs: `Except.error e` is a raised exception
     whose str() is `e`.
   - Side effects of the handlers (writing the uploaded bytes, invoking the
     adapter, attempting to delete the temporary file) are recorded in an
     explicit, ordered event list; log lines go to a separate log list.
   - Python str.strip() is modelled by String.trim, and the f-string detail
     messages are rebuilt by string concatenation (quotes around interpolated
     values are kept verbatim from the source). -/

namespace TTSBackend

/-! ### config.py -/

def MAX_TEXT_LENGTH : Nat := 2000

def TTS_OUTPUT_DIR : String := "tts/outputs"

def AUDIO_FORMAT : String := "wav"

def DEFAULT_VOICE_FR : String := "ff_siwis"

def DEFAULT_VOICE_EN : String := "af_heart"

def STT_MAX_FILE_SIZE_MB : Nat := 25

def STT_UPLOAD_DIR : String := "stt/uploads"

/-! ### Python built-ins used by the code -/

/-- Python round(x, 2). Python uses round-half-to-even on floats; the claims
never exercise a tie, so the rounding mode at exact half-integers is
immaterial. -/
def round2 (q : ℚ) : ℚ := (round (q * 100) : ℤ) / 100

/-- Python format spec ".1f" for a non-negative rational (appears only inside
detail strings). -/
def fmtPoint1 (q : ℚ) : String :=
  let n : ℤ := round (q * 10)
  toString (n / 10) ++ "." ++ toString (n % 10)

/-- The characters Python str.strip removes (the ASCII whitespace set; the
further Unicode spaces Python also strips never occur in the claims). -/
def isPySpace (c : Char) : Bool :=
  c == ' ' || c == '\t' || c == '\n' || c == '\r' || c == '\x0b' || c == '\x0c'

/-- Python str.strip(): drop leading and trailing whitespace. -/
def pyStrip (s : String) : String :=
  String.mk (((s.data.dropWhile isPySpace).reverse.dropWhile isPySpace).reverse)

/-- posixpath.join for two components, as used by os.path.join in the code:
the second component wins when absolute; otherwise one separator is inserted
unless the first component is empty or already ends in one. -/
def osPathJoin (a b : String) : String :=
  if b.data.head? = some '/' then b
  else if a = "" ∨ a.data.getLast? = some '/' then a ++ b
  else a ++ "/" ++ b

/-- Index of the last occurrence of `c` in `cs` (Python str.rfind, as a
0-based index or none). -/
def rfindChar (cs : List Char) (c : Char) : Option Nat :=
  ((List.range cs.length).filter (fun i => cs.getD i ' ' = c)).getLast?

/-- The extension component of os.path.splitext (posixpath): the suffix that
starts at the last dot, provided that dot lies after the last slash and the
basename is not made of leading dots only. -/
def splitextExt (s : String) : String :=
  let cs := s.data
  let sepIndex : ℤ := match rfindChar cs '/' with | some i => (i : ℤ) | none => -1
  let dotIndex : ℤ := match rfindChar cs '.' with | some i => (i : ℤ) | none => -1
  if dotIndex > sepIndex ∧
      (List.range cs.length).any (fun j =>
        decide (sepIndex < (j : ℤ)) && decide ((j : ℤ) < dotIndex) &&
        decide (cs.getD j '.' ≠ '.'))
  then String.mk (cs.drop dotIndex.toNat)
  else ""

/-! ### tts_service.py -/

/-- The two pre-loaded Kokoro pipelines (pipeline_fr, pipeline_en). -/
inductive KPipelineHandle where
  | pipeline_fr
  | pipeline_en
deriving DecidableEq, Repr

/-- One (gs, ps, audio) tuple yielded by the Kokoro generator; audio samples
are modelled as rationals. -/
structure AudioChunk where
  gs : String
  ps : String
  audio : List ℚ
deriving DecidableEq, Repr

/-- Behaviour of `pipeline(text, voice=selected_voice, speed=speed)` followed
by draining the generator: either the full chunk list, or an exception. -/
def TtsEngine : Type := KPipelineHandle → String → String → ℚ → Except String (List AudioChunk)

/-- Behaviour of `sf.write(filepath, full_audio, 24000)`: ok, or an
exception. -/
def TtsWrite : Type := String → List ℚ → Except String Unit

/-- The dict returned by generate_audio. -/
structure GenResult where
  success : Bool
  filename : Option String
  filepath : Option String
  duration : ℚ
  error : Option String
deriving DecidableEq, Repr

/-- tts_service.get_pipeline_and_voice: pipeline_fr for "fr", the English
pipeline for everything else; an empty (falsy) voice selects the configured
default voice of that branch. -/
def get_pipeline_and_voice (language : String) (voice : String) :
    KPipelineHandle × String :=
  if language = "fr" then
    (KPipelineHandle.pipeline_fr, if voice ≠ "" then voice else DEFAULT_VOICE_FR)
  else
    (KPipelineHandle.pipeline_en, if voice ≠ "" then voice else DEFAULT_VOICE_EN)

/-- tts_service.generate_audio. `engine` and `write` are the two fallible
call sites inside the try block, `uid` the 8-character uuid slice, `tStart`
and `tEnd` the two time.time() samples. Every exception of the try block is
caught by the except branch, which returns the failure dict. -/
def generate_audio (engine : TtsEngine) (write : TtsWrite) (uid : String)
    (tStart tEnd : ℚ) (text language voice : String) (speed : ℚ) : GenResult :=
  let fail : String → GenResult := fun e =>
    { success := false, filename := none, filepath := none,
      duration := round2 (tEnd - tStart), error := some e }
  let pv := get_pipeline_and_voice language voice
  match engine pv.1 text pv.2 speed with
  | Except.error e => fail e
  | Except.ok chunks =>
      let audio_chunks := chunks.map AudioChunk.audio
      if audio_chunks.isEmpty then
        fail "Kokoro n'a généré aucun audio"
      else
        let full_audio := audio_chunks.flatten
        let filename := "audio_" ++ uid ++ "." ++ AUDIO_FORMAT
        let filepath := osPathJoin TTS_OUTPUT_DIR filename
        match write filepath full_audio with
        | Except.error e => fail e
        | Except.ok _ =>
            { success := true, filename := some filename, filepath := some filepath,
              duration := round2 (tEnd - tStart), error := none }

/-! ### stt_service.py -/

/-- One segment yielded by the Faster-Whisper generator; `stop` is the
source's segment.end (a Lean keyword). -/
structure WhisperSegment where
  start : ℚ
  stop : ℚ
  text : String
deriving DecidableEq, Repr

/-- The info value returned next to the segment generator. -/
structure WhisperInfo where
  language : String
  language_probability : ℚ
deriving DecidableEq, Repr

/-- Behaviour of `stt_model.transcribe(filepath, language=..., beam_size=5,
word_timestamps=True)` followed by draining the segment generator. -/
def SttEngine : Type := String → Option String → Except String (List WhisperSegment × WhisperInfo)

/-- One entry of the segments list built by transcribe_audio. -/
structure SegmentData where
  start : ℚ
  stop : ℚ
  text : String
deriving DecidableEq, Repr

/-- The dict returned by transcribe_audio. -/
structure SttResult where
  success : Bool
  text : Option String
  language : Option String
  language_probability : Option ℚ
  segments : List SegmentData
  duration : ℚ
  error : Option String
deriving DecidableEq, Repr

/-- stt_service.transcribe_audio. `engine` is the fallible transcribe call
plus generator drain; `tStart`, `tEnd` the two time.time() samples. -/
def transcribe_audio (engine : SttEngine) (tStart tEnd : ℚ) (filepath : String)
    (language : Option String) : SttResult :=
  let fail : String → SttResult := fun e =>
    { success := false, text := none, language := none,
      language_probability := none, segments := [],
      duration := round2 (tEnd - tStart), error := some e }
  match engine filepath language with
  | Except.error e => fail e
  | Except.ok (segments, info) =>
      let segments_list := segments.map (fun s =>
        { start := round2 s.start, stop := round2 s.stop,
          text := pyStrip s.text : SegmentData })
      let full_text := pyStrip ((segments.map WhisperSegment.text).foldl (· ++ ·) "")
      if full_text = "" then
        fail "Aucun texte transcrit - le fichier audio est peut-être vide ou inaudible"
      else
        { success := true, text := some full_text, language := some info.language,
          language_probability := some (round2 info.language_probability),
          segments := segments_list,
          duration := round2 (tEnd - tStart), error := none }

/-! ### main.py — request handler layer -/

/-- A handler outcome at transport level: an HTTPException with its status
code and detail, or a 200 payload. -/
inductive HttpResult (α : Type) where
  | httpError (status : Nat) (detail : String)
  | ok (payload : α)
deriving DecidableEq, Repr

/-- The body of POST /tts (Pydantic model TTSRequest). -/
structure TTSRequest where
  text : String
  language : String
  voice : String
  speed : ℚ
deriving DecidableEq, Repr

/-- The FileResponse returned by a successful POST /tts: the streamed file
plus the custom headers. -/
structure TtsFileResponse where
  path : String
  media_type : String
  filename : String
  headerGenerationDuration : ℚ
  headerAudioFilename : String
deriving DecidableEq, Repr

/-- Effects of the TTS handler: the one call into the adapter layer. -/
inductive TtsEvent where
  | invokeGenerate (text language voice : String) (speed : ℚ)
deriving DecidableEq, Repr

structure TtsOutcome where
  resp : HttpResult TtsFileResponse
  events : List TtsEvent
deriving DecidableEq, Repr

/-- main.text_to_speech (POST /tts): the three validation rules in source
order, each raising HTTPException 400 before generate_audio runs; then the
adapter call, mapped to 500 on failure or to a FileResponse on success. -/
def text_to_speech (engine : TtsEngine) (write : TtsWrite) (uid : String)
    (tStart tEnd : ℚ) (request : TTSRequest) : TtsOutcome :=
  if pyStrip request.text = "" then
    { resp := HttpResult.httpError 400 "Le texte ne peut pas être vide",
      events := [] }
  else if request.text.length > MAX_TEXT_LENGTH then
    { resp := HttpResult.httpError 400
        ("Le texte dépasse la limite de " ++ toString MAX_TEXT_LENGTH ++
         " caractères (" ++ toString request.text.length ++ " reçus)"),
      events := [] }
  else if ¬ (request.language ∈ ["fr", "en"]) then
    { resp := HttpResult.httpError 400
        ("Langue non supportée : '" ++ request.language ++ "'. Utilisez 'fr' ou 'en'"),
      events := [] }
  else
    let result := generate_audio engine write uid tStart tEnd
        request.text request.language request.voice request.speed
    let events := [TtsEvent.invokeGenerate request.text request.language
        request.voice request.speed]
    if result.success = false then
      { resp := HttpResult.httpError 500
          ("Erreur lors de la génération audio : " ++ (result.error).getD ""),
        events := events }
    else
      { resp := HttpResult.ok
          { path := (result.filepath).getD "",
            media_type := "audio/wav",
            filename := (result.filename).getD "",
            headerGenerationDuration := result.duration,
            headerAudioFilename := (result.filename).getD "" },
        events := events }

/-- The FileResponse returned by GET /audio/filename. -/
structure DlFileResponse where
  path : String
  media_type : String
  filename : String
deriving DecidableEq, Repr

/-- main.download_audio (GET /audio/filename). The output directory is a
flat store modelled as an association list from file path to byte content;
os.path.exists is lookup success. The handler performs no write: it returns
the store unchanged. -/
def download_audio (fs : List (String × List Nat)) (filename : String) :
    HttpResult DlFileResponse × List (String × List Nat) :=
  let filepath := osPathJoin TTS_OUTPUT_DIR filename
  if (fs.lookup filepath).isNone then
    (HttpResult.httpError 404 ("Fichier audio '" ++ filename ++ "' introuvable"), fs)
  else
    (HttpResult.ok { path := filepath, media_type := "audio/wav", filename := filename }, fs)

/-- An uploaded multipart file: starlette UploadFile plus the bytes that
await file.read() yields. -/
structure UploadFile where
  filename : String
  content_type : String
  contents : List Nat
deriving DecidableEq, Repr

/-- Effects of the STT handlers, in execution order: writing the temporary
upload file, invoking transcribe_audio, attempting os.remove. -/
inductive SttEvent where
  | writeFile (path : String) (contents : List Nat)
  | invokeTranscribe (path : String) (language : Option String)
  | removeAttempt (path : String)
deriving DecidableEq, Repr

/-- The JSON body returned by a successful transcription endpoint. -/
structure SttResponse where
  success : Bool
  text : Option String
  language : Option String
  language_probability : Option ℚ
  segments : List SegmentData
  duration : ℚ
deriving DecidableEq, Repr

structure SttOutcome where
  resp : HttpResult SttResponse
  events : List SttEvent
  logs : List String
deriving DecidableEq, Repr

/-- The allow-list of audio media types checked by /stt/upload. -/
def allowed_types : List String :=
  ["audio/wav", "audio/wave", "audio/mp3", "audio/mpeg", "audio/ogg",
   "audio/webm", "audio/m4a"]

/-- main.speech_to_text_upload (POST /stt/upload): content-type allow-list
check, then the size ceiling on the received byte count, both raising 400
before anything is written; then temporary save, transcription, guaranteed
cleanup attempt (its outcome only logged, on either branch), and the mapping
of the result dict to the response. -/
def speech_to_text_upload (engine : SttEngine) (removeResult : Except String Unit)
    (uid : String) (tStart tEnd : ℚ) (file : UploadFile) (language : String) :
    SttOutcome :=
  if ¬ (file.content_type ∈ allowed_types) then
    { resp := HttpResult.httpError 400
        ("Format non supporté : " ++ file.content_type ++
         ". Utilisez WAV, MP3, OGG, WEBM ou M4A"),
      events := [], logs := [] }
  else
    let contents := file.contents
    let file_size_mb : ℚ := (contents.length : ℚ) / (1024 * 1024)
    if file_size_mb > (STT_MAX_FILE_SIZE_MB : ℚ) then
      { resp := HttpResult.httpError 400
          ("Fichier trop volumineux : " ++ fmtPoint1 file_size_mb ++
           "MB. Maximum : " ++ toString STT_MAX_FILE_SIZE_MB ++ "MB"),
        events := [], logs := [] }
    else
      let extension := if splitextExt file.filename ≠ "" then splitextExt file.filename
                       else ".wav"
      let upload_filename := "upload_" ++ uid ++ extension
      let upload_filepath := osPathJoin STT_UPLOAD_DIR upload_filename
      let language_param := if language = "auto" then none else some language
      let result := transcribe_audio engine tStart tEnd upload_filepath language_param
      let cleanupLogs :=
        match removeResult with
        | Except.ok _ => ["Fichier temporaire supprimé : " ++ upload_filename]
        | Except.error e => ["Impossible de supprimer le fichier temporaire : " ++ e]
      let events := [SttEvent.writeFile upload_filepath contents,
                     SttEvent.invokeTranscribe upload_filepath language_param,
                     SttEvent.removeAttempt upload_filepath]
      if result.success = false then
        { resp := HttpResult.httpError 500
            ("Erreur lors de la transcription : " ++ (result.error).getD ""),
          events := events, logs := cleanupLogs }
      else
        { resp := HttpResult.ok
            { success := true, text := result.text, language := result.language,
              language_probability := result.language_probability,
              segments := result.segments, duration := result.duration },
          events := events, logs := cleanupLogs }

/-- main.speech_to_text_record (POST /stt/record): only the size ceiling is
validated (the source performs no content-type check here); the temporary
file is always named record_uid.webm; then transcription, guaranteed cleanup
attempt and result mapping, duplicated from the upload handler in the
source. -/
def speech_to_text_record (engine : SttEngine) (removeResult : Except String Unit)
    (uid : String) (tStart tEnd : ℚ) (file : UploadFile) (language : String) :
    SttOutcome :=
  let contents := file.contents
  let file_size_mb : ℚ := (contents.length : ℚ) / (1024 * 1024)
  if file_size_mb > (STT_MAX_FILE_SIZE_MB : ℚ) then
    { resp := HttpResult.httpError 400
        ("Enregistrement trop volumineux : " ++ fmtPoint1 file_size_mb ++
         "MB. Maximum : " ++ toString STT_MAX_FILE_SIZE_MB ++ "MB"),
      events := [], logs := [] }
  else
    let upload_filepath := osPathJoin STT_UPLOAD_DIR ("record_" ++ uid ++ ".webm")
    let language_param := if language = "auto" then none else some language
    let result := transcribe_audio engine tStart tEnd upload_filepath language_param
    let cleanupLogs :=
      match removeResult with
      | Except.ok _ => []
      | Except.error e => ["Impossible de supprimer l'enregistrement temporaire : " ++ e]
    let events := [SttEvent.writeFile upload_filepath contents,
                   SttEvent.invokeTranscribe upload_filepath language_param,
                   SttEvent.removeAttempt upload_filepath]
    if result.success = false then
      { resp := HttpResult.httpError 500
          ("Erreur lors de la transcription : " ++ (result.error).getD ""),
        events := events, logs := cleanupLogs }
    else
      { resp := HttpResult.ok
          { success := true, text := result.text, language := result.language,
            language_probability := result.language_probability,
            segments := result.segments, duration := result.duration },
        events := events, logs := cleanupLogs }

/-! ### Helper lemmas and concrete behaviours used by the witnesses -/

theorem round2_nonneg (q : ℚ) (h : 0 ≤ q) : 0 ≤ round2 q := by
  unfold round2
  have h100 : (0 : ℤ) ≤ round (q * 100) := by
    rw [round_eq]
    exact Int.le_floor.mpr (by push_cast; linarith)
  have : (0 : ℚ) ≤ (round (q * 100) : ℤ) := by exact_mod_cast h100
  positivity

/-- A TTS engine behaviour producing one audio chunk. -/
def engineOneChunk : TtsEngine := fun _ _ _ _ =>
  Except.ok [{ gs := "g", ps := "p", audio := [0] }]

/-- A TTS engine behaviour producing no chunk at all. -/
def engineNoChunks : TtsEngine := fun _ _ _ _ => Except.ok []

/-- A TTS engine behaviour that raises. -/
def engineRaises : TtsEngine := fun _ _ _ _ => Except.error "CUDA out of memory"

/-- A file write that succeeds. -/
def writeOk : TtsWrite := fun _ _ => Except.ok ()

/-- A file write that raises. -/
def writeRaises : TtsWrite := fun _ _ => Except.error "disk full"

/-- An STT engine behaviour that raises. -/
def sttEngineFail : SttEngine := fun _ _ => Except.error "engine down"

/-- An STT engine behaviour yielding one non-empty segment. -/
def sttEngineHello : SttEngine := fun _ _ =>
  Except.ok ([{ start := 0, stop := 1, text := " Bonjour" }],
             { language := "fr", language_probability := 1 })

/-- An STT engine behaviour yielding zero segments (silent clip). -/
def sttEngineSilent : SttEngine := fun _ _ =>
  Except.ok ([], { language := "fr", language_probability := 1 })

/-- os.remove succeeding. -/
def removeOk : Except String Unit := Except.ok ()

/-- os.remove raising. -/
def removeFails : Except String Unit := Except.error "Permission denied"

/-- An upload whose declared content type is not an audio media type. -/
def badFile : UploadFile :=
  { filename := "a.txt", content_type := "text/plain", contents := [0] }

/-- A one-byte wav upload. -/
def smallWav : UploadFile :=
  { filename := "a.wav", content_type := "audio/wav", contents := [0] }

/-- generate_audio returns either the failure shape or the success shape,
both carrying the rounded wall-clock duration. -/
theorem generate_audio_shape (engine : TtsEngine) (write : TtsWrite) (uid : String)
    (tStart tEnd : ℚ) (text language voice : String) (speed : ℚ) :
    (∃ e, generate_audio engine write uid tStart tEnd text language voice speed =
      { success := false, filename := none, filepath := none,
        duration := round2 (tEnd - tStart), error := some e }) ∨
    (∃ fn fp, generate_audio engine write uid tStart tEnd text language voice speed =
      { success := true, filename := some fn, filepath := some fp,
        duration := round2 (tEnd - tStart), error := none }) := by
  simp only [generate_audio]
  split
  · exact Or.inl ⟨_, rfl⟩
  · split
    · exact Or.inl ⟨_, rfl⟩
    · split
      · exact Or.inl ⟨_, rfl⟩
      · exact Or.inr ⟨_, _, rfl⟩

/-- transcribe_audio returns either the failure shape or the success shape. -/
theorem transcribe_audio_shape (engine : SttEngine) (tStart tEnd : ℚ)
    (filepath : String) (language : Option String) :
    (∃ e, transcribe_audio engine tStart tEnd filepath language =
      { success := false, text := none, language := none,
        language_probability := none, segments := [],
        duration := round2 (tEnd - tStart), error := some e }) ∨
    (∃ t lg p segs, transcribe_audio engine tStart tEnd filepath language =
      { success := true, text := some t, language := some lg,
        language_probability := some p, segments := segs,
        duration := round2 (tEnd - tStart), error := none }) := by
  simp only [transcribe_audio]
  split
  · exact Or.inl ⟨_, rfl⟩
  · split
    · exact Or.inl ⟨_, rfl⟩
    · exact Or.inr ⟨_, _, _, _, rfl⟩

/-- When the engine yields zero chunks, generate_audio fails with the
no-audio message. -/
theorem generate_audio_no_chunks (engine : TtsEngine) (write : TtsWrite)
    (uid : String) (tStart tEnd : ℚ) (text language voice : String) (speed : ℚ)
    (hEngine : engine (get_pipeline_and_voice language voice).1 text
        (get_pipeline_and_voice language voice).2 speed = Except.ok []) :
    generate_audio engine write uid tStart tEnd text language voice speed =
      { success := false, filename := none, filepath := none,
        duration := round2 (tEnd - tStart),
        error := some "Kokoro n'a généré aucun audio" } := by
  simp only [generate_audio]
  rw [hEngine]
  rfl

/-- When the trimmed concatenation of all segment texts is empty,
transcribe_audio fails with the no-speech message. -/
theorem transcribe_audio_no_text (engine : SttEngine) (tStart tEnd : ℚ)
    (filepath : String) (language : Option String)
    (segments : List WhisperSegment) (info : WhisperInfo)
    (hEngine : engine filepath language = Except.ok (segments, info))
    (hEmpty : pyStrip ((segments.map WhisperSegment.text).foldl (· ++ ·) "") = "") :
    transcribe_audio engine tStart tEnd filepath language =
      { success := false, text := none, language := none,
        language_probability := none, segments := [],
        duration := round2 (tEnd - tStart),
        error := some "Aucun texte transcrit - le fichier audio est peut-être vide ou inaudible" } := by
  simp only [transcribe_audio]
  rw [hEngine]
  simp only [hEmpty, if_pos]

/-! ### Claims -/

/-- C6: the voice/language resolver is total and pure; for a supported
language and an empty requested voice it returns the configured default
voice of that language together with that language's pipeline, and a
non-empty requested voice is returned unchanged. -/
theorem C6_resolver_defaults (voice : String) :
    get_pipeline_and_voice "fr" "" = (KPipelineHandle.pipeline_fr, DEFAULT_VOICE_FR) ∧
    get_pipeline_and_voice "en" "" = (KPipelineHandle.pipeline_en, DEFAULT_VOICE_EN) ∧
    (voice ≠ "" →
      get_pipeline_and_voice "fr" voice = (KPipelineHandle.pipeline_fr, voice) ∧
      get_pipeline_and_voice "en" voice = (KPipelineHandle.pipeline_en, voice)) := by
  refine ⟨by simp [get_pipeline_and_voice], by simp [get_pipeline_and_voice], ?_⟩
  intro h
  constructor <;> simp [get_pipeline_and_voice, h]

theorem C6_resolver_defaults_witness :
    get_pipeline_and_voice "fr" "bf_emma" = (KPipelineHandle.pipeline_fr, "bf_emma") ∧
    get_pipeline_and_voice "en" "bf_emma" = (KPipelineHandle.pipeline_en, "bf_emma") :=
  (C6_resolver_defaults "bf_emma").2.2 (by decide)

/-- C10: for every language other than "fr" the resolver returns the English
pipeline (with the configured English default when the voice is empty), and
generate_audio itself performs no language check: with any language string,
a successfully producing engine and a successful write yield a success
result. -/
theorem C10_resolver_total (language voice : String) :
    (language ≠ "fr" →
      get_pipeline_and_voice language voice =
        (KPipelineHandle.pipeline_en,
         if voice ≠ "" then voice else DEFAULT_VOICE_EN)) ∧
    (∀ (engine : TtsEngine) (write : TtsWrite) (uid : String) (tStart tEnd : ℚ)
        (text : String) (speed : ℚ) (chunks : List AudioChunk),
      engine (get_pipeline_and_voice language voice).1 text
          (get_pipeline_and_voice language voice).2 speed = Except.ok chunks →
      chunks ≠ [] →
      write (osPathJoin TTS_OUTPUT_DIR ("audio_" ++ uid ++ "." ++ AUDIO_FORMAT))
          ((chunks.map AudioChunk.audio).flatten) = Except.ok () →
      (generate_audio engine write uid tStart tEnd text language voice speed).success
        = true) := by
  constructor
  · intro h
    simp [get_pipeline_and_voice, h]
  · intro engine write uid tStart tEnd text speed chunks hEngine hNe hWrite
    simp only [generate_audio]
    rw [hEngine]
    simp only [List.isEmpty_eq_true, List.map_eq_nil_iff]
    rw [if_neg hNe, hWrite]

theorem C10_resolver_total_witness :
    get_pipeline_and_voice "de" "" = (KPipelineHandle.pipeline_en, DEFAULT_VOICE_EN) ∧
    (generate_audio engineOneChunk writeOk "u" 0 0 "Hallo" "de" "" 1).success = true :=
  ⟨by simpa using (C10_resolver_total "de" "").1 (by decide),
   (C10_resolver_total "de" "").2 engineOneChunk writeOk "u" 0 0 "Hallo" 1
     [{ gs := "g", ps := "p", audio := [0] }] rfl (by decide) rfl⟩

/-- C3: the two adapters convert every exception of the engine call or of
the file write into a returned result with success = false and a non-null
error string (the failure never escapes the adapter, which is a total
function of its inputs in this model). -/
theorem C3_adapters_catch_all :
    (∀ (engine : TtsEngine) (write : TtsWrite) (uid : String) (tStart tEnd : ℚ)
        (text language voice : String) (speed : ℚ) (e : String),
      engine (get_pipeline_and_voice language voice).1 text
          (get_pipeline_and_voice language voice).2 speed = Except.error e →
      (generate_audio engine write uid tStart tEnd text language voice speed).success
          = false ∧
      (generate_audio engine write uid tStart tEnd text language voice speed).error
          = some e) ∧
    (∀ (engine : TtsEngine) (write : TtsWrite) (uid : String) (tStart tEnd : ℚ)
        (text language voice : String) (speed : ℚ) (chunks : List AudioChunk)
        (e : String),
      engine (get_pipeline_and_voice language voice).1 text
          (get_pipeline_and_voice language voice).2 speed = Except.ok chunks →
      chunks ≠ [] →
      write (osPathJoin TTS_OUTPUT_DIR ("audio_" ++ uid ++ "." ++ AUDIO_FORMAT))
          ((chunks.map AudioChunk.audio).flatten) = Except.error e →
      (generate_audio engine write uid tStart tEnd text language voice speed).success
          = false ∧
      (generate_audio engine write uid tStart tEnd text language voice speed).error
          = some e) ∧
    (∀ (engine : SttEngine) (tStart tEnd : ℚ) (filepath : String)
        (language : Option String) (e : String),
      engine filepath language = Except.error e →
      (transcribe_audio engine tStart tEnd filepath language).success = false ∧
      (transcribe_audio engine tStart tEnd filepath language).error = some e) := by
  refine ⟨?_, ?_, ?_⟩
  · intro engine write uid tStart tEnd text language voice speed e hEngine
    simp only [generate_audio]
    rw [hEngine]
    exact ⟨rfl, rfl⟩
  · intro engine write uid tStart tEnd text language voice speed chunks e hEngine hNe hWrite
    simp only [generate_audio]
    rw [hEngine]
    simp only [List.isEmpty_eq_true, List.map_eq_nil_iff]
    rw [if_neg hNe, hWrite]
    exact ⟨rfl, rfl⟩
  · intro engine tStart tEnd filepath language e hEngine
    simp only [transcribe_audio]
    rw [hEngine]
    exact ⟨rfl, rfl⟩

theorem C3_adapters_catch_all_witness :
    (generate_audio engineRaises writeOk "u" 0 0 "Bonjour" "fr" "" 1).error
        = some "CUDA out of memory" ∧
    (generate_audio engineOneChunk writeRaises "u" 0 0 "Bonjour" "fr" "" 1).error
        = some "disk full" ∧
    (transcribe_audio sttEngineFail 0 0 "stt/uploads/x.wav" none).error
        = some "engine down" :=
  ⟨(C3_adapters_catch_all.1 engineRaises writeOk "u" 0 0 "Bonjour" "fr" "" 1
      "CUDA out of memory" rfl).2,
   (C3_adapters_catch_all.2.1 engineOneChunk writeRaises "u" 0 0 "Bonjour" "fr" "" 1
      [{ gs := "g", ps := "p", audio := [0] }] "disk full" rfl (by decide) rfl).2,
   (C3_adapters_catch_all.2.2 sttEngineFail 0 0 "stt/uploads/x.wav" none
      "engine down" rfl).2⟩

/-- C9: every result dict of the two adapters satisfies success = true iff
error = null, carries duration = round(tEnd - tStart, 2) which is
non-negative whenever the clock did not go backwards, and on failure
generate_audio nulls filename and filepath while transcribe_audio nulls
text, language and language_probability and returns the empty segments
list. -/
theorem C9_result_shape (engine : TtsEngine) (write : TtsWrite)
    (sengine : SttEngine) (uid : String) (tStart tEnd : ℚ)
    (text language voice : String) (speed : ℚ) (filepath : String)
    (lang : Option String) (h : tStart ≤ tEnd) :
    (((generate_audio engine write uid tStart tEnd text language voice speed).success = true ↔
       (generate_audio engine write uid tStart tEnd text language voice speed).error = none) ∧
     (generate_audio engine write uid tStart tEnd text language voice speed).duration
        = round2 (tEnd - tStart) ∧
     0 ≤ (generate_audio engine write uid tStart tEnd text language voice speed).duration ∧
     ((generate_audio engine write uid tStart tEnd text language voice speed).success = false →
       (generate_audio engine write uid tStart tEnd text language voice speed).filename = none ∧
       (generate_audio engine write uid tStart tEnd text language voice speed).filepath = none)) ∧
    (((transcribe_audio sengine tStart tEnd filepath lang).success = true ↔
       (transcribe_audio sengine tStart tEnd filepath lang).error = none) ∧
     (transcribe_audio sengine tStart tEnd filepath lang).duration = round2 (tEnd - tStart) ∧
     0 ≤ (transcribe_audio sengine tStart tEnd filepath lang).duration ∧
     ((transcribe_audio sengine tStart tEnd filepath lang).success = false →
       (transcribe_audio sengine tStart tEnd filepath lang).text = none ∧
       (transcribe_audio sengine tStart tEnd filepath lang).language = none ∧
       (transcribe_audio sengine tStart tEnd filepath lang).language_probability = none ∧
       (transcribe_audio sengine tStart tEnd filepath lang).segments = [])) := by
  have hr : 0 ≤ round2 (tEnd - tStart) := round2_nonneg _ (by linarith)
  constructor
  · rcases generate_audio_shape engine write uid tStart tEnd text language voice speed with
      ⟨e, hg⟩ | ⟨fn, fp, hg⟩ <;> rw [hg] <;> simp [hr]
  · rcases transcribe_audio_shape sengine tStart tEnd filepath lang with
      ⟨e, hg⟩ | ⟨t, lg, p, segs, hg⟩ <;> rw [hg] <;> simp [hr]

theorem C9_result_shape_witness :
    0 ≤ (generate_audio engineOneChunk writeOk "u" 0 1 "Bonjour" "fr" "" 1).duration ∧
    0 ≤ (transcribe_audio sttEngineHello 0 1 "stt/uploads/x.wav" none).duration :=
  ⟨(C9_result_shape engineOneChunk writeOk sttEngineHello "u" 0 1 "Bonjour" "fr" "" 1
      "stt/uploads/x.wav" none (by norm_num)).1.2.2.1,
   (C9_result_shape engineOneChunk writeOk sttEngineHello "u" 0 1 "Bonjour" "fr" "" 1
      "stt/uploads/x.wav" none (by norm_num)).2.2.2.1⟩

/-- C5: producing nothing is an error: an engine that yields zero chunks
makes generate_audio fail with the no-audio message and the TTS handler
answer 500; a drained segment sequence whose trimmed concatenated text is
empty makes transcribe_audio fail with the no-speech message and the STT
handler answer 500. -/
theorem C5_empty_output_is_error :
    (∀ (engine : TtsEngine) (write : TtsWrite) (uid : String) (tStart tEnd : ℚ)
        (text language voice : String) (speed : ℚ),
      engine (get_pipeline_and_voice language voice).1 text
          (get_pipeline_and_voice language voice).2 speed = Except.ok [] →
      generate_audio engine write uid tStart tEnd text language voice speed =
        { success := false, filename := none, filepath := none,
          duration := round2 (tEnd - tStart),
          error := some "Kokoro n'a généré aucun audio" }) ∧
    (∀ (engine : TtsEngine) (write : TtsWrite) (uid : String) (tStart tEnd : ℚ)
        (request : TTSRequest),
      pyStrip request.text ≠ "" → ¬ request.text.length > MAX_TEXT_LENGTH →
      request.language ∈ ["fr", "en"] →
      engine (get_pipeline_and_voice request.language request.voice).1 request.text
          (get_pipeline_and_voice request.language request.voice).2 request.speed
        = Except.ok [] →
      (text_to_speech engine write uid tStart tEnd request).resp =
        HttpResult.httpError 500
          "Erreur lors de la génération audio : Kokoro n'a généré aucun audio") ∧
    (∀ (engine : SttEngine) (tStart tEnd : ℚ) (filepath : String)
        (language : Option String) (segments : List WhisperSegment)
        (info : WhisperInfo),
      engine filepath language = Except.ok (segments, info) →
      pyStrip ((segments.map WhisperSegment.text).foldl (· ++ ·) "") = "" →
      transcribe_audio engine tStart tEnd filepath language =
        { success := false, text := none, language := none,
          language_probability := none, segments := [],
          duration := round2 (tEnd - tStart),
          error := some "Aucun texte transcrit - le fichier audio est peut-être vide ou inaudible" }) ∧
    (∀ (engine : SttEngine) (removeResult : Except String Unit) (uid : String)
        (tStart tEnd : ℚ) (file : UploadFile) (language : String)
        (segments : List WhisperSegment) (info : WhisperInfo),
      ¬ ((file.contents.length : ℚ) / (1024 * 1024) > (STT_MAX_FILE_SIZE_MB : ℚ)) →
      (∀ fp lp, engine fp lp = Except.ok (segments, info)) →
      pyStrip ((segments.map WhisperSegment.text).foldl (· ++ ·) "") = "" →
      (speech_to_text_record engine removeResult uid tStart tEnd file language).resp =
        HttpResult.httpError 500
          "Erreur lors de la transcription : Aucun texte transcrit - le fichier audio est peut-être vide ou inaudible") := by
  refine ⟨?_, ?_, ?_, ?_⟩
  · intro engine write uid tStart tEnd text language voice speed hEngine
    exact generate_audio_no_chunks engine write uid tStart tEnd text language voice
      speed hEngine
  · intro engine write uid tStart tEnd request h1 h2 h3 hEngine
    simp only [text_to_speech]
    rw [if_neg h1, if_neg h2, if_neg (not_not_intro h3),
        generate_audio_no_chunks engine write uid tStart tEnd request.text
          request.language request.voice request.speed hEngine]
    rfl
  · intro engine tStart tEnd filepath language segments info hEngine hEmpty
    exact transcribe_audio_no_text engine tStart tEnd filepath language segments
      info hEngine hEmpty
  · intro engine removeResult uid tStart tEnd file language segments info hSize
      hEngine hEmpty
    simp only [speech_to_text_record]
    rw [if_neg hSize,
        transcribe_audio_no_text engine tStart tEnd
          (osPathJoin STT_UPLOAD_DIR ("record_" ++ uid ++ ".webm"))
          (if language = "auto" then none else some language) segments info
          (hEngine _ _) hEmpty]
    rfl

theorem C5_empty_output_is_error_witness :
    (text_to_speech engineNoChunks writeOk "u" 0 0
        { text := "Bonjour", language := "fr", voice := "", speed := 1 }).resp =
      HttpResult.httpError 500
        "Erreur lors de la génération audio : Kokoro n'a généré aucun audio" ∧
    (speech_to_text_record sttEngineSilent removeOk "r" 0 0 smallWav "auto").resp =
      HttpResult.httpError 500
        "Erreur lors de la transcription : Aucun texte transcrit - le fichier audio est peut-être vide ou inaudible" :=
  ⟨C5_empty_output_is_error.2.1 engineNoChunks writeOk "u" 0 0
      { text := "Bonjour", language := "fr", voice := "", speed := 1 }
      (by decide) (by decide) (by decide) rfl,
   C5_empty_output_is_error.2.2.2 sttEngineSilent removeOk "r" 0 0 smallWav "auto"
      [] { language := "fr", language_probability := 1 }
      (by norm_num [smallWav, STT_MAX_FILE_SIZE_MB]) (fun _ _ => rfl) rfl⟩

/-! ### Handler helper lemmas (shared by several claims) -/

/-- A payload of exactly the configured maximum passes the size check. -/
theorem size_exact_ok (n : Nat) (h : n = STT_MAX_FILE_SIZE_MB * 1024 * 1024) :
    ¬ ((n : ℚ) / (1024 * 1024) > (STT_MAX_FILE_SIZE_MB : ℚ)) := by
  subst h
  simp only [STT_MAX_FILE_SIZE_MB]
  push_cast
  norm_num

/-- A payload one byte over the configured maximum fails the size check. -/
theorem size_over_bad (n : Nat) (h : n = STT_MAX_FILE_SIZE_MB * 1024 * 1024 + 1) :
    (n : ℚ) / (1024 * 1024) > (STT_MAX_FILE_SIZE_MB : ℚ) := by
  subst h
  simp only [STT_MAX_FILE_SIZE_MB]
  push_cast
  rw [gt_iff_lt, lt_div_iff₀ (by norm_num)]
  norm_num

/-- Effect trace of a valid upload request: write, transcribe, remove, in
this order, whatever the engine and removal outcomes. -/
theorem upload_valid_events (engine : SttEngine) (rem : Except String Unit)
    (uid : String) (tStart tEnd : ℚ) (file : UploadFile) (language : String)
    (hct : file.content_type ∈ allowed_types)
    (hsize : ¬ ((file.contents.length : ℚ) / (1024 * 1024) > (STT_MAX_FILE_SIZE_MB : ℚ))) :
    (speech_to_text_upload engine rem uid tStart tEnd file language).events =
      [SttEvent.writeFile
        (osPathJoin STT_UPLOAD_DIR ("upload_" ++ uid ++
          (if splitextExt file.filename ≠ "" then splitextExt file.filename else ".wav")))
        file.contents,
       SttEvent.invokeTranscribe
        (osPathJoin STT_UPLOAD_DIR ("upload_" ++ uid ++
          (if splitextExt file.filename ≠ "" then splitextExt file.filename else ".wav")))
        (if language = "auto" then none else some language),
       SttEvent.removeAttempt
        (osPathJoin STT_UPLOAD_DIR ("upload_" ++ uid ++
          (if splitextExt file.filename ≠ "" then splitextExt file.filename else ".wav")))] := by
  simp only [speech_to_text_upload, if_neg (not_not_intro hct), if_neg hsize,
    apply_ite SttOutcome.events, ite_self]

/-- Effect trace of a valid recording request: write, transcribe, remove. -/
theorem record_valid_events (engine : SttEngine) (rem : Except String Unit)
    (uid : String) (tStart tEnd : ℚ) (file : UploadFile) (language : String)
    (hsize : ¬ ((file.contents.length : ℚ) / (1024 * 1024) > (STT_MAX_FILE_SIZE_MB : ℚ))) :
    (speech_to_text_record engine rem uid tStart tEnd file language).events =
      [SttEvent.writeFile (osPathJoin STT_UPLOAD_DIR ("record_" ++ uid ++ ".webm"))
        file.contents,
       SttEvent.invokeTranscribe (osPathJoin STT_UPLOAD_DIR ("record_" ++ uid ++ ".webm"))
        (if language = "auto" then none else some language),
       SttEvent.removeAttempt (osPathJoin STT_UPLOAD_DIR ("record_" ++ uid ++ ".webm"))] := by
  simp only [speech_to_text_record, if_neg hsize,
    apply_ite SttOutcome.events, ite_self]

/-- The removal outcome changes neither the response nor the effect trace of
the upload handler. -/
theorem upload_remove_invariant (engine : SttEngine) (rem rem' : Except String Unit)
    (uid : String) (tStart tEnd : ℚ) (file : UploadFile) (language : String)
    (hct : file.content_type ∈ allowed_types)
    (hsize : ¬ ((file.contents.length : ℚ) / (1024 * 1024) > (STT_MAX_FILE_SIZE_MB : ℚ))) :
    (speech_to_text_upload engine rem uid tStart tEnd file language).resp =
      (speech_to_text_upload engine rem' uid tStart tEnd file language).resp ∧
    (speech_to_text_upload engine rem uid tStart tEnd file language).events =
      (speech_to_text_upload engine rem' uid tStart tEnd file language).events := by
  simp only [speech_to_text_upload, if_neg (not_not_intro hct), if_neg hsize,
    apply_ite SttOutcome.resp, apply_ite SttOutcome.events]
  exact ⟨trivial, trivial⟩

/-- The removal outcome changes neither the response nor the effect trace of
the recording handler. -/
theorem record_remove_invariant (engine : SttEngine) (rem rem' : Except String Unit)
    (uid : String) (tStart tEnd : ℚ) (file : UploadFile) (language : String)
    (hsize : ¬ ((file.contents.length : ℚ) / (1024 * 1024) > (STT_MAX_FILE_SIZE_MB : ℚ))) :
    (speech_to_text_record engine rem uid tStart tEnd file language).resp =
      (speech_to_text_record engine rem' uid tStart tEnd file language).resp ∧
    (speech_to_text_record engine rem uid tStart tEnd file language).events =
      (speech_to_text_record engine rem' uid tStart tEnd file language).events := by
  simp only [speech_to_text_record, if_neg hsize,
    apply_ite SttOutcome.resp, apply_ite SttOutcome.events]
  exact ⟨trivial, trivial⟩

/-- An oversize upload is rejected with 400 before any effect. -/
theorem upload_oversize_reject (engine : SttEngine) (rem : Except String Unit)
    (uid : String) (tStart tEnd : ℚ) (file : UploadFile) (language : String)
    (hct : file.content_type ∈ allowed_types)
    (hsize : (file.contents.length : ℚ) / (1024 * 1024) > (STT_MAX_FILE_SIZE_MB : ℚ)) :
    (∃ d, (speech_to_text_upload engine rem uid tStart tEnd file language).resp =
      HttpResult.httpError 400 d) ∧
    (speech_to_text_upload engine rem uid tStart tEnd file language).events = [] := by
  simp only [speech_to_text_upload]
  rw [if_neg (not_not_intro hct), if_pos hsize]
  exact ⟨⟨_, rfl⟩, rfl⟩

/-- An oversize recording is rejected with 400 before any effect. -/
theorem record_oversize_reject (engine : SttEngine) (rem : Except String Unit)
    (uid : String) (tStart tEnd : ℚ) (file : UploadFile) (language : String)
    (hsize : (file.contents.length : ℚ) / (1024 * 1024) > (STT_MAX_FILE_SIZE_MB : ℚ)) :
    (∃ d, (speech_to_text_record engine rem uid tStart tEnd file language).resp =
      HttpResult.httpError 400 d) ∧
    (speech_to_text_record engine rem uid tStart tEnd file language).events = [] := by
  simp only [speech_to_text_record]
  rw [if_pos hsize]
  exact ⟨⟨_, rfl⟩, rfl⟩

/-- An upload of exactly the configured maximum size. -/
def maxSizeWav : UploadFile :=
  { filename := "a.wav", content_type := "audio/wav",
    contents := List.replicate (STT_MAX_FILE_SIZE_MB * 1024 * 1024) 0 }

/-- An upload one byte over the configured maximum size. -/
def overSizeWav : UploadFile :=
  { filename := "a.wav", content_type := "audio/wav",
    contents := List.replicate (STT_MAX_FILE_SIZE_MB * 1024 * 1024 + 1) 0 }

/-- C1: the TTS handler rejects with 400 — and the adapter is never invoked
(empty effect trace) — whenever the stripped text is empty, the text length
exceeds MAX_TEXT_LENGTH, or the language is outside the fr/en set; a request
passing all three checks reaches generate_audio with the request fields. -/
theorem C1_tts_validation (engine : TtsEngine) (write : TtsWrite) (uid : String)
    (tStart tEnd : ℚ) (request : TTSRequest) :
    ((pyStrip request.text = "" ∨ request.text.length > MAX_TEXT_LENGTH ∨
        ¬ request.language ∈ ["fr", "en"]) →
      (∃ d, (text_to_speech engine write uid tStart tEnd request).resp =
          HttpResult.httpError 400 d) ∧
      (text_to_speech engine write uid tStart tEnd request).events = []) ∧
    (pyStrip request.text ≠ "" → ¬ request.text.length > MAX_TEXT_LENGTH →
      request.language ∈ ["fr", "en"] →
      (text_to_speech engine write uid tStart tEnd request).events =
        [TtsEvent.invokeGenerate request.text request.language request.voice
          request.speed]) := by
  constructor
  · intro h
    simp only [text_to_speech]
    by_cases h1 : pyStrip request.text = ""
    · rw [if_pos h1]
      exact ⟨⟨_, rfl⟩, rfl⟩
    · rw [if_neg h1]
      by_cases h2 : request.text.length > MAX_TEXT_LENGTH
      · rw [if_pos h2]
        exact ⟨⟨_, rfl⟩, rfl⟩
      · rw [if_neg h2]
        have h3 : ¬ request.language ∈ ["fr", "en"] := by tauto
        rw [if_pos h3]
        exact ⟨⟨_, rfl⟩, rfl⟩
  · intro h1 h2 h3
    simp only [text_to_speech, if_neg h1, if_neg h2, if_neg (not_not_intro h3),
      apply_ite TtsOutcome.events, ite_self]

theorem C1_tts_validation_witness :
    (text_to_speech engineOneChunk writeOk "w" 0 0
        { text := " ", language := "fr", voice := "", speed := 1 }).events = [] ∧
    (text_to_speech engineOneChunk writeOk "w" 0 0
        { text := "Bonjour", language := "fr", voice := "", speed := 1 }).events =
      [TtsEvent.invokeGenerate "Bonjour" "fr" "" 1] :=
  ⟨((C1_tts_validation engineOneChunk writeOk "w" 0 0
      { text := " ", language := "fr", voice := "", speed := 1 }).1
      (Or.inl (by decide))).2,
   (C1_tts_validation engineOneChunk writeOk "w" 0 0
      { text := "Bonjour", language := "fr", voice := "", speed := 1 }).2
      (by decide) (by decide) (by decide)⟩

/-- C2: on every transcription request passing validation, the handler
writes the temporary file, invokes transcribe_audio on it and then attempts
the removal, in this order and whatever the transcription outcome; the
removal outcome changes neither the response nor the effect trace (only a
log line), on both endpoints. -/
theorem C2_cleanup_after_transcription (engine : SttEngine)
    (rem rem' : Except String Unit) (uid : String) (tStart tEnd : ℚ)
    (file : UploadFile) (language : String) :
    (file.content_type ∈ allowed_types →
      ¬ ((file.contents.length : ℚ) / (1024 * 1024) > (STT_MAX_FILE_SIZE_MB : ℚ)) →
      (∃ p lp, (speech_to_text_upload engine rem uid tStart tEnd file language).events =
        [SttEvent.writeFile p file.contents, SttEvent.invokeTranscribe p lp,
         SttEvent.removeAttempt p]) ∧
      (speech_to_text_upload engine rem uid tStart tEnd file language).resp =
        (speech_to_text_upload engine rem' uid tStart tEnd file language).resp ∧
      (speech_to_text_upload engine rem uid tStart tEnd file language).events =
        (speech_to_text_upload engine rem' uid tStart tEnd file language).events) ∧
    (¬ ((file.contents.length : ℚ) / (1024 * 1024) > (STT_MAX_FILE_SIZE_MB : ℚ)) →
      (∃ p lp, (speech_to_text_record engine rem uid tStart tEnd file language).events =
        [SttEvent.writeFile p file.contents, SttEvent.invokeTranscribe p lp,
         SttEvent.removeAttempt p]) ∧
      (speech_to_text_record engine rem uid tStart tEnd file language).resp =
        (speech_to_text_record engine rem' uid tStart tEnd file language).resp ∧
      (speech_to_text_record engine rem uid tStart tEnd file language).events =
        (speech_to_text_record engine rem' uid tStart tEnd file language).events) := by
  constructor
  · intro hct hsize
    exact ⟨⟨_, _, upload_valid_events engine rem uid tStart tEnd file language hct hsize⟩,
           (upload_remove_invariant engine rem rem' uid tStart tEnd file language hct hsize).1,
           (upload_remove_invariant engine rem rem' uid tStart tEnd file language hct hsize).2⟩
  · intro hsize
    exact ⟨⟨_, _, record_valid_events engine rem uid tStart tEnd file language hsize⟩,
           (record_remove_invariant engine rem rem' uid tStart tEnd file language hsize).1,
           (record_remove_invariant engine rem rem' uid tStart tEnd file language hsize).2⟩

theorem C2_cleanup_after_transcription_witness :
    (∃ p lp, (speech_to_text_upload sttEngineFail removeFails "c" 0 0 smallWav "auto").events =
      [SttEvent.writeFile p smallWav.contents, SttEvent.invokeTranscribe p lp,
       SttEvent.removeAttempt p]) ∧
    (speech_to_text_upload sttEngineFail removeFails "c" 0 0 smallWav "auto").resp =
      (speech_to_text_upload sttEngineFail removeOk "c" 0 0 smallWav "auto").resp :=
  ⟨((C2_cleanup_after_transcription sttEngineFail removeFails removeOk "c" 0 0
      smallWav "auto").1 (by decide)
      (by norm_num [smallWav, STT_MAX_FILE_SIZE_MB])).1,
   ((C2_cleanup_after_transcription sttEngineFail removeFails removeOk "c" 0 0
      smallWav "auto").1 (by decide)
      (by norm_num [smallWav, STT_MAX_FILE_SIZE_MB])).2.1⟩

/-- C4 counterexample: a recording request whose declared content type is
text/plain — not in the allow-list — is not rejected before the write: the
handler writes its bytes to disk and proceeds to transcription, refuting the
claim for the /stt/record endpoint. -/
theorem C4_content_type_counterexample :
    ¬ badFile.content_type ∈ allowed_types ∧
    (speech_to_text_record sttEngineFail removeOk "abc" 0 0 badFile "auto").events =
      [SttEvent.writeFile "stt/uploads/record_abc.webm" badFile.contents,
       SttEvent.invokeTranscribe "stt/uploads/record_abc.webm" none,
       SttEvent.removeAttempt "stt/uploads/record_abc.webm"] := by
  constructor
  · decide
  · rw [record_valid_events sttEngineFail removeOk "abc" 0 0 badFile "auto"
      (by norm_num [badFile, STT_MAX_FILE_SIZE_MB])]
    decide

/-- C4 amended: only the upload endpoint validates the declared content
type, rejecting a non-allow-listed type with 400 before any effect; the
recording endpoint performs no content-type check at all — its outcome is
entirely independent of the declared content type (only the size ceiling is
validated there). -/
theorem C4_content_type_amended (engine : SttEngine) (rem : Except String Unit)
    (uid : String) (tStart tEnd : ℚ) (file : UploadFile) (language ct : String) :
    (¬ file.content_type ∈ allowed_types →
      (∃ d, (speech_to_text_upload engine rem uid tStart tEnd file language).resp =
          HttpResult.httpError 400 d) ∧
      (speech_to_text_upload engine rem uid tStart tEnd file language).events = []) ∧
    speech_to_text_record engine rem uid tStart tEnd
        { file with content_type := ct } language =
      speech_to_text_record engine rem uid tStart tEnd file language := by
  constructor
  · intro h
    simp only [speech_to_text_upload]
    rw [if_pos h]
    exact ⟨⟨_, rfl⟩, rfl⟩
  · rfl

theorem C4_content_type_amended_witness :
    (speech_to_text_upload sttEngineFail removeOk "abc" 0 0 badFile "auto").events
      = [] :=
  ((C4_content_type_amended sttEngineFail removeOk "abc" 0 0 badFile "auto" "x").1
    (by decide)).2

/-- C7: the download handler checks existence in the output directory store:
a missing file yields a 404 and the store is returned unchanged (the handler
performs no write on any path); an existing file is streamed back from its
unmodified path. -/
theorem C7_download_not_found (fs : List (String × List Nat)) (filename : String)
    (content : List Nat) :
    (fs.lookup (osPathJoin TTS_OUTPUT_DIR filename) = none →
      ∃ d, (download_audio fs filename).1 = HttpResult.httpError 404 d) ∧
    (download_audio fs filename).2 = fs ∧
    (fs.lookup (osPathJoin TTS_OUTPUT_DIR filename) = some content →
      (download_audio fs filename).1 = HttpResult.ok
        { path := osPathJoin TTS_OUTPUT_DIR filename, media_type := "audio/wav",
          filename := filename }) := by
  refine ⟨?_, ?_, ?_⟩
  · intro h
    simp only [download_audio]
    rw [h]
    exact ⟨_, rfl⟩
  · simp only [download_audio]
    split
    · rfl
    · rfl
  · intro h
    simp only [download_audio]
    rw [h]
    rfl

theorem C7_download_not_found_witness :
    (∃ d, (download_audio [("tts/outputs/a.wav", [1])] "b.wav").1 =
      HttpResult.httpError 404 d) ∧
    (download_audio [("tts/outputs/a.wav", [1])] "a.wav").1 =
      HttpResult.ok
        { path := osPathJoin TTS_OUTPUT_DIR "a.wav",
          media_type := "audio/wav", filename := "a.wav" } :=
  ⟨(C7_download_not_found [("tts/outputs/a.wav", [1])] "b.wav" []).1 (by decide),
   (C7_download_not_found [("tts/outputs/a.wav", [1])] "a.wav" [1]).2.2 (by decide)⟩

/-- C8: the size ceiling is an exact boundary on the received byte count on
both endpoints: exactly STT_MAX_FILE_SIZE_MB megabytes passes the size
validation (the payload is written and transcription proceeds), one byte
more is rejected with 400 and no effect. -/
theorem C8_size_boundary (engine : SttEngine) (rem : Except String Unit)
    (uid : String) (tStart tEnd : ℚ) (file : UploadFile) (language : String) :
    (file.contents.length = STT_MAX_FILE_SIZE_MB * 1024 * 1024 →
      (file.content_type ∈ allowed_types →
        ∃ p lp, (speech_to_text_upload engine rem uid tStart tEnd file language).events =
          [SttEvent.writeFile p file.contents, SttEvent.invokeTranscribe p lp,
           SttEvent.removeAttempt p]) ∧
      (∃ p lp, (speech_to_text_record engine rem uid tStart tEnd file language).events =
        [SttEvent.writeFile p file.contents, SttEvent.invokeTranscribe p lp,
         SttEvent.removeAttempt p])) ∧
    (file.contents.length = STT_MAX_FILE_SIZE_MB * 1024 * 1024 + 1 →
      (file.content_type ∈ allowed_types →
        (∃ d, (speech_to_text_upload engine rem uid tStart tEnd file language).resp =
          HttpResult.httpError 400 d) ∧
        (speech_to_text_upload engine rem uid tStart tEnd file language).events = []) ∧
      ((∃ d, (speech_to_text_record engine rem uid tStart tEnd file language).resp =
          HttpResult.httpError 400 d) ∧
       (speech_to_text_record engine rem uid tStart tEnd file language).events = [])) := by
  constructor
  · intro hlen
    have hsize := size_exact_ok file.contents.length hlen
    exact ⟨fun hct =>
        ⟨_, _, upload_valid_events engine rem uid tStart tEnd file language hct hsize⟩,
      ⟨_, _, record_valid_events engine rem uid tStart tEnd file language hsize⟩⟩
  · intro hlen
    have hsize := size_over_bad file.contents.length hlen
    exact ⟨fun hct =>
        upload_oversize_reject engine rem uid tStart tEnd file language hct hsize,
      record_oversize_reject engine rem uid tStart tEnd file language hsize⟩

theorem C8_size_boundary_witness :
    (∃ p lp, (speech_to_text_upload sttEngineFail removeOk "u" 0 0 maxSizeWav "auto").events =
      [SttEvent.writeFile p maxSizeWav.contents, SttEvent.invokeTranscribe p lp,
       SttEvent.removeAttempt p]) ∧
    (∃ d, (speech_to_text_record sttEngineFail removeOk "u" 0 0 overSizeWav "auto").resp =
      HttpResult.httpError 400 d) :=
  ⟨((C8_size_boundary sttEngineFail removeOk "u" 0 0 maxSizeWav "auto").1
      (by simp [maxSizeWav])).1 (by decide),
   (((C8_size_boundary sttEngineFail removeOk "u" 0 0 overSizeWav "auto").2
      (by simp [overSizeWav])).2).1⟩

end TTSBackend
